import Mathlib

/-!
Verification development for the voice-agent conversational pipeline.
The Python sources (services/stt_service.py, services/llm_service.py,
services/tts_service.py, services/chat_service.py, main.py,
websocket_audio_handler.py) are shallowly embedded: strings are lists of
characters, remote calls are explicit outcome parameters, mutable state is
passed explicitly, and code that may raise an uncaught exception is modelled
with Option (none = the exception escapes).
-/

namespace VoiceAgent

/- Python-style string helpers over List Char.  The apostrophe character is
   built from its code point; decodeLit decodes the asterisk in a literal as
   an apostrophe. -/

def apos : Char := Char.ofNat 39

def decodeLit (s : String) : List Char :=
  s.toList.map (fun c => if c = '*' then apos else c)

def toLowerStr (s : List Char) : List Char := s.map Char.toLower

/-- Python str.strip(): drop leading and trailing whitespace. -/
def pyStrip (s : List Char) : List Char :=
  ((s.dropWhile Char.isWhitespace).reverse.dropWhile Char.isWhitespace).reverse

/-- Helper for pySplit: acc holds the current (reversed) word. -/
def pySplitAux : List Char → List Char → List (List Char)
  | [], acc => if acc.isEmpty then [] else [acc.reverse]
  | c :: cs, acc =>
    if c.isWhitespace then
      if acc.isEmpty then pySplitAux cs [] else acc.reverse :: pySplitAux cs []
    else pySplitAux cs (c :: acc)

/-- Python str.split() with no argument: split on whitespace runs, dropping
    empty pieces. -/
def pySplit (s : List Char) : List (List Char) := pySplitAux s []

/-- Suffix of `s` after the first occurrence of `sep`; none when `sep` does
    not occur.  Models Python substring search. -/
def dropAfterSep (sep : List Char) : List Char → Option (List Char)
  | [] => if sep.isEmpty then some [] else none
  | c :: cs =>
    if sep.isPrefixOf (c :: cs) then some (List.drop sep.length (c :: cs))
    else dropAfterSep sep cs

/-- Prefix of `s` before the first occurrence of `sep` (all of `s` when `sep`
    does not occur). -/
def takeUntilSep (sep : List Char) : List Char → List Char
  | [] => []
  | c :: cs =>
    if sep.isPrefixOf (c :: cs) then [] else c :: takeUntilSep sep cs

/-- Python `needle in haystack` on strings. -/
def strIn (needle hay : List Char) : Bool := (dropAfterSep needle hay).isSome

/-- Python str.capitalize(): first character uppercased, the rest lowercased. -/
def pyCapitalize : List Char → List Char
  | [] => []
  | c :: cs => c.toUpper :: cs.map Char.toLower

/- Data model (schemas/api_models.py). -/

inductive ServiceStatus
  | success
  | fallback
  | error
deriving DecidableEq, Repr

inductive Role
  | user
  | assistant
deriving DecidableEq, Repr

structure ChatMessage where
  role : Role
  content : List Char
  timestamp : List Char
  confidence : Option Rat
deriving DecidableEq, Repr

structure ChatSession where
  session_id : Nat
  messages : List ChatMessage
  message_count : Nat
  created_at : Option (List Char)
deriving DecidableEq, Repr

structure TranscriptionResult where
  text : List Char
  confidence : Rat
  status : ServiceStatus
  service_used : List Char
  error_message : Option (List Char)
deriving DecidableEq, Repr

structure LLMResult where
  response : List Char
  status : ServiceStatus
  service_used : List Char
  tokens_used : Option Nat
  error_message : Option (List Char)
deriving DecidableEq, Repr

structure AudioResponse where
  audio_url : Option (List Char)
  source : List Char
  voice_used : List Char
  use_browser_tts : Bool
  text : List Char
  status : ServiceStatus
  note : Option (List Char)
deriving DecidableEq, Repr

/- Credential handling common to the three services (each Python class has an
   identical _check_availability / set_api_key pair). -/

def sentinelKey : List Char := ("DISABLED_FOR_TESTING").toList

structure SvcState where
  api_key : Option (List Char)
  is_available : Bool
deriving DecidableEq, Repr

/-- bool(api_key and api_key.strip() != "" and api_key != "DISABLED_FOR_TESTING") -/
def checkAvailability : Option (List Char) → Bool
  | none => false
  | some k => !k.isEmpty && !(pyStrip k).isEmpty && !(k == sentinelKey)

def svcInit (k : Option (List Char)) : SvcState :=
  { api_key := k, is_available := checkAvailability k }

def set_api_key (_st : SvcState) (k : List Char) : SvcState :=
  { api_key := some k, is_available := checkAvailability (some k) }

/- STT adapter (services/stt_service.py, STTService.transcribe_audio).
   The remote transcription call either raises (exc) or yields a transcript
   record with an optional error field, a text and a confidence. -/

inductive SttRemote
  | exc (msg : List Char)
  | transcript (err : Option (List Char)) (text : List Char) (confidence : Rat)
deriving DecidableEq, Repr

def sttUnavailableText : List Char :=
  decodeLit ("I*m having trouble with my speech recognition right now. Could you please try again?")

def sttNetworkText : List Char :=
  decodeLit ("I*m having network connectivity issues. Please check your internet connection and try again.")

def sttApiText : List Char :=
  ("My speech recognition service is temporarily unavailable. Please try again in a moment.").toList

def sttGenericText : List Char :=
  decodeLit ("I*m having trouble understanding your audio. Please try speaking more clearly.")

def sttErrorText : List Char :=
  decodeLit ("I couldn*t understand what you said. Please try speaking more clearly.")

def sttEmptyText : List Char :=
  decodeLit ("I didn*t hear anything. Could you please speak louder or closer to your microphone?")

def transcribe_audio (st : SvcState) (r : SttRemote) : TranscriptionResult :=
  if !st.is_available then
    { text := sttUnavailableText, confidence := 0, status := .error,
      service_used := ("assemblyai").toList,
      error_message := some (("API key missing or disabled").toList) }
  else
    match r with
    | .exc msg =>
      let m := toLowerStr msg
      let text :=
        if strIn (("network").toList) m || strIn (("timeout").toList) m then sttNetworkText
        else if strIn (("api").toList) m then sttApiText
        else sttGenericText
      { text := text, confidence := 0, status := .error,
        service_used := ("assemblyai").toList, error_message := some msg }
    | .transcript (some e) _ _ =>
      { text := sttErrorText, confidence := 0, status := .error,
        service_used := ("assemblyai").toList, error_message := some e }
    | .transcript none t conf =>
      if t.isEmpty || (pyStrip t).isEmpty then
        { text := sttEmptyText, confidence := 0, status := .error,
          service_used := ("assemblyai").toList,
          error_message := some (("Empty transcription").toList) }
      else
        { text := pyStrip t, confidence := conf, status := .success,
          service_used := ("assemblyai").toList, error_message := none }

/- LLM adapter (services/llm_service.py).  The remote call either raises a
   timeout / connection error / other exception, or returns an HTTP response;
   a 200 body is one of: no candidates, candidate without content/parts, or a
   text (with optional usage token count). -/

inductive GeminiBody
  | noCandidates
  | badStructure
  | withText (t : List Char) (tokens : Option Nat)
deriving DecidableEq, Repr

inductive LlmRemote
  | timeout
  | connError
  | exc (msg : List Char)
  | http (status : Nat) (body : GeminiBody)
deriving DecidableEq, Repr

def nameIsSep : List Char := ("my name is").toList

def imSep : List Char := ['i', apos, 'm']

/-- One step of the name-extraction loop: after the first occurrence of `sep`
    in `content`, take the piece up to the next occurrence (Python
    content.split(sep)[1]), strip it and split it into words; the first word
    is the name, and an empty piece raises IndexError (modelled as .error). -/
def namePartAfter (sep content : List Char) : Except Unit (List Char) :=
  match (pySplit (pyStrip (takeUntilSep sep ((dropAfterSep sep content).getD [])))).head? with
  | some w => .ok (pyCapitalize w)
  | none => .error ()

/-- Name extraction in _get_contextual_fallback_response: scan the history for
    the first user message containing "my name is" or "i'm"; .error models the
    IndexError raised when no word follows the marker. -/
def extractUserName : List ChatMessage → Except Unit (Option (List Char))
  | [] => .ok none
  | m :: rest =>
    let content := toLowerStr m.content
    if m.role = .user ∧ (strIn nameIsSep content ∨ strIn imSep content) then
      if strIn nameIsSep content then
        (namePartAfter nameIsSep content).map some
      else
        (namePartAfter imSep content).map some
    else extractUserName rest

def greetingNeedles : List (List Char) :=
  [("hello").toList, ("hi").toList, ("hey").toList, ("good morning").toList,
   ("good afternoon").toList, ("good evening").toList]

def yourNameNeedles : List (List Char) :=
  [("what").toList ++ [apos] ++ ("s your name").toList, ("your name").toList,
   ("who are you").toList]

def myNameNeedles : List (List Char) :=
  [("my name").toList, ("what").toList ++ [apos] ++ ("s my name").toList,
   ("who am i").toList]

def thanksNeedles : List (List Char) :=
  [("thank").toList, ("thanks").toList, ("appreciate").toList]

def questionNeedles : List (List Char) :=
  [("what").toList, ("how").toList, ("why").toList, ("when").toList,
   ("where").toList, ("?").toList]

def helloWithName (n : List Char) : List Char :=
  ("Hello ").toList ++ n ++
    decodeLit ("! I*m experiencing some technical difficulties with my AI systems right now, but I*m still here to help as best I can.")

def helloNoName : List Char :=
  decodeLit ("Hello! I*m having some technical difficulties with my AI brain right now, but I*m still here to chat when my systems are back online.")

def whoAmIText : List Char :=
  decodeLit ("I*m an AI assistant, though I*m having trouble accessing my full capabilities right now. My AI systems are temporarily experiencing issues.")

def youToldMeText (n : List Char) : List Char :=
  ("You told me your name is ").toList ++ n ++
    (", and I remember that even though my AI systems are having issues right now.").toList

def memoryTroubleText : List Char :=
  decodeLit ("I*m having trouble with my memory systems right now. Could you remind me of your name?")

def youreWelcomeText : List Char :=
  decodeLit ("You*re welcome! I*m sorry I can*t provide my full AI capabilities right now due to technical difficulties.")

def loveToHelpText : List Char :=
  decodeLit ("I*d love to help answer your question, but I*m experiencing connectivity issues with my AI knowledge systems right now. Please try again in a moment.")

/-- The four generic fallback texts subject to random.choice; the PRNG draw is
    modelled as an explicit index. -/
def genericFallback : Fin 4 → List Char
  | 0 => decodeLit ("I*m having trouble connecting to my AI brain right now. Please try again in a moment.")
  | 1 => decodeLit ("Sorry, I*m experiencing some technical difficulties. Could you repeat that?")
  | 2 => decodeLit ("I*m having connectivity issues at the moment. Please bear with me and try again.")
  | 3 => ("My AI systems are temporarily unavailable. Please try your question again shortly.").toList

/-- True when the lowercased input matches one of the four contextual
    categories of _get_contextual_fallback_response (otherwise the generic
    random.choice branch is taken). -/
def contextualInput (text : List Char) : Bool :=
  let tl := toLowerStr text
  greetingNeedles.any (fun g => strIn g tl) ||
  yourNameNeedles.any (fun g => strIn g tl) ||
  myNameNeedles.any (fun g => strIn g tl) ||
  thanksNeedles.any (fun g => strIn g tl) ||
  questionNeedles.any (fun g => strIn g tl)

/-- LLMService._get_contextual_fallback_response; none models the IndexError
    escaping from the name extraction. -/
def fallbackResponse (text : List Char) (hist : List ChatMessage) (pick : Fin 4) :
    Option (List Char) :=
  match extractUserName hist with
  | .error _ => none
  | .ok userName =>
    let tl := toLowerStr text
    if greetingNeedles.any (fun g => strIn g tl) then
      some (match userName with
        | some n => helloWithName n
        | none => helloNoName)
    else if yourNameNeedles.any (fun g => strIn g tl) then
      some whoAmIText
    else if myNameNeedles.any (fun g => strIn g tl) then
      some (match userName with
        | some n => youToldMeText n
        | none => memoryTroubleText)
    else if thanksNeedles.any (fun g => strIn g tl) then
      some youreWelcomeText
    else if questionNeedles.any (fun g => strIn g tl) then
      some loveToHelpText
    else
      some (genericFallback pick)

def llmTimeoutText : List Char :=
  decodeLit ("I*m taking a bit longer to think than usual. Could you please try asking your question again?")

def llmConnText : List Char :=
  decodeLit ("I*m having trouble connecting to my AI brain right now. Please check your internet connection and try again.")

/-- LLMService.generate_response.  Returns none exactly when an exception
    escapes (the fallback-path IndexError, re-raised by the except handler). -/
def generate_response (st : SvcState) (text : List Char) (hist : List ChatMessage)
    (pick : Fin 4) (r : LlmRemote) : Option LLMResult :=
  if !st.is_available then
    (fallbackResponse text hist pick).map (fun fb =>
      { response := fb, status := .fallback, service_used := ("fallback").toList,
        tokens_used := none,
        error_message := some (("API key missing or disabled").toList) })
  else
    match r with
    | .timeout =>
      some { response := llmTimeoutText, status := .error,
             service_used := ("gemini").toList, tokens_used := none,
             error_message := some (("Request timeout").toList) }
    | .connError =>
      some { response := llmConnText, status := .error,
             service_used := ("gemini").toList, tokens_used := none,
             error_message := some (("Connection error").toList) }
    | .exc msg =>
      (fallbackResponse text hist pick).map (fun fb =>
        { response := fb, status := .error, service_used := ("fallback").toList,
          tokens_used := none, error_message := some msg })
    | .http status body =>
      if status = 200 then
        match body with
        | .withText t tok =>
          let t2 := pyStrip t
          if !t2.isEmpty then
            some { response := t2, status := .success,
                   service_used := ("gemini").toList, tokens_used := tok,
                   error_message := none }
          else
            (fallbackResponse text hist pick).map (fun fb =>
              { response := fb, status := .fallback,
                service_used := ("fallback").toList, tokens_used := none,
                error_message := some (("Empty response from API").toList) })
        | .badStructure =>
          (fallbackResponse text hist pick).map (fun fb =>
            { response := fb, status := .fallback,
              service_used := ("fallback").toList, tokens_used := none,
              error_message := some (("Invalid response structure").toList) })
        | .noCandidates =>
          (fallbackResponse text hist pick).map (fun fb =>
            { response := fb, status := .fallback,
              service_used := ("fallback").toList, tokens_used := none,
              error_message := some (("No candidates in response").toList) })
      else
        (fallbackResponse text hist pick).map (fun fb =>
          { response := fb, status := .fallback,
            service_used := ("fallback").toList, tokens_used := none,
            error_message := some (("API error").toList) })

/- TTS adapter (services/tts_service.py).  One remote attempt either raises
   (timeout / connection error / other) or returns an HTTP response whose 200
   body carries an optional audioFile URL. -/

inductive MurfAttempt
  | timeout
  | connError
  | exc (msg : List Char)
  | http (status : Nat) (audioFile : Option (List Char))
deriving DecidableEq, Repr

def maxTextLength : Nat := 3000

def ellipsisChars : List Char := ['.', '.', '.']

/-- The truncation applied before the remote call:
    if len(text) > max: text = text[:max - 3] + "...". -/
def truncateForTTS (maxLen : Nat) (text : List Char) : List Char :=
  if text.length > maxLen then text.take (maxLen - 3) ++ ellipsisChars else text

/-- TTSService._call_murf_api wrapped in the per-attempt exception handling of
    generate_audio: some = a returned AudioResponse, none = this attempt
    failed (exception, non-200, or empty audioFile). -/
def murfCall (a : MurfAttempt) (text : List Char) : Option AudioResponse :=
  match a with
  | .timeout => none
  | .connError => none
  | .exc _ => none
  | .http status audioFile =>
    if status = 200 then
      match audioFile with
      | some url =>
        if url.isEmpty then none
        else some { audio_url := some url, source := ("murf_api").toList,
                    voice_used := ("ken-conversational").toList,
                    use_browser_tts := false, text := text,
                    status := .success, note := none }
      | none => none
    else none

/-- The retry loop `for attempt in range(max_retries)` (the inter-attempt
    sleep is timing-only and dropped). -/
def murfLoop (r : Nat → MurfAttempt) (text : List Char) : Nat → Nat → Option AudioResponse
  | _, 0 => none
  | i, k + 1 =>
    match murfCall (r i) text with
    | some resp => some resp
    | none => murfLoop r text (i + 1) k

def browserFallback (text : List Char) : AudioResponse :=
  { audio_url := none, source := ("browser_tts").toList,
    voice_used := ("browser_fallback").toList, use_browser_tts := true,
    text := text, status := .fallback,
    note := some (("Using browser TTS - Murf API unavailable").toList) }

/-- TTSService.generate_audio with the attempt outcomes supplied explicitly
    (max_retries defaults to 2 at every call site). -/
def generate_audio (st : SvcState) (r : Nat → MurfAttempt) (text : List Char)
    (max_retries : Nat) : AudioResponse :=
  let text2 := truncateForTTS maxTextLength text
  if st.is_available then
    match murfLoop r text2 0 max_retries with
    | some resp => resp
    | none => browserFallback text2
  else browserFallback text2

/- Session store (services/chat_service.py).  The chat_sessions dict is a map
   from session id to ChatSession; uuid generation and datetime.now() are
   passed in explicitly. -/

def Store : Type := Nat → Option ChatSession

def emptyStore : Store := fun _ => none

def storeSet (st : Store) (sid : Nat) (s : ChatSession) : Store :=
  fun j => if j = sid then some s else st j

/-- ChatService.create_session. -/
def create_session (store : Store) (sidOpt : Option Nat) (uuid : Nat)
    (createdAt : List Char) : ChatSession × Store :=
  let sid := sidOpt.getD uuid
  match store sid with
  | some s => (s, store)
  | none =>
    let s : ChatSession := { session_id := sid, messages := [], message_count := 0,
                             created_at := some createdAt }
    (s, storeSet store sid s)

/-- ChatService.get_session. -/
def get_session (store : Store) (sid : Nat) : Option ChatSession := store sid

/-- The `if session_id not in self.chat_sessions: self.create_session(...)`
    preamble shared by add_message and process_audio_message. -/
def ensureSession (store : Store) (sid : Nat) (now : List Char) : Store :=
  if (store sid).isSome then store
  else (create_session store (some sid) 0 now).2

/-- ChatService.add_message. -/
def add_message (store : Store) (sid : Nat) (role : Role) (content : List Char)
    (confidence : Option Rat) (now : List Char) : ChatMessage × Store :=
  let store1 := ensureSession store sid now
  let m : ChatMessage := { role := role, content := content, timestamp := now,
                           confidence := confidence }
  match store1 sid with
  | some s =>
    (m, storeSet store1 sid
      { s with messages := s.messages ++ [m], message_count := s.message_count + 1 })
  | none => (m, store1)

/-- Python list[-n:] for a natural n (l[-0:] is the whole list). -/
def pyLastSlice (l : List ChatMessage) (n : Nat) : List ChatMessage :=
  if n = 0 then l else l.drop (l.length - n)

/-- ChatService.get_conversation_history. -/
def get_conversation_history (store : Store) (sid : Nat) (max_messages : Nat) :
    List ChatMessage :=
  match get_session store sid with
  | none => []
  | some s =>
    if s.messages.length > max_messages then pyLastSlice s.messages max_messages
    else s.messages

/-- ChatService.clear_session. -/
def clear_session (store : Store) (sid : Nat) : Bool × Store :=
  match store sid with
  | some s => (true, storeSet store sid { s with messages := [], message_count := 0 })
  | none => (false, store)

/-- ChatService.delete_session. -/
def delete_session (store : Store) (sid : Nat) : Bool × Store :=
  match store sid with
  | some _ => (true, fun j => if j = sid then none else store j)
  | none => (false, store)

/- Pipelines.  Stage adapter invocations are recorded in a trace so that
   "stage never invoked" is expressible. -/

inductive Stage
  | stt
  | llm
  | tts
deriving DecidableEq, Repr

/-- The synchronous composite result assembled by process_audio_message
    (response_data dict, with the nested error_handling flattened). -/
structure ResponseData where
  session_id : Nat
  user_message : List Char
  assistant_response : List Char
  audio_url : Option (List Char)
  use_browser_tts : Bool
  audio_source : List Char
  voice_used : List Char
  total_messages : Nat
  transcription_confidence : Rat
  stt_status : ServiceStatus
  llm_status : ServiceStatus
  tts_status : ServiceStatus
deriving DecidableEq, Repr

/-- The store after steps 1-2 of process_audio_message: ensure the session,
transcribe, and record the user turn (the transcription text is recorded
whatever the result variant). -/
def pipelineUserStore (store : Store) (sid : Nat) (sttSt : SvcState)
    (sttR : SttRemote) (now1 : List Char) : Store :=
  (add_message (ensureSession store sid now1) sid .user
    (transcribe_audio sttSt sttR).text
    (some (transcribe_audio sttSt sttR).confidence) now1).2

/-- ChatService.process_audio_message.  The first component is none when the
    LLM stage raises (the response is never built, but store mutations made
    before the exception persist); the last component is the list of stage
    adapters invoked, in order. -/
def process_audio_message (store : Store) (sid : Nat)
    (sttSt : SvcState) (sttR : SttRemote)
    (llmSt : SvcState) (llmR : LlmRemote) (pick : Fin 4)
    (ttsSt : SvcState) (ttsR : Nat → MurfAttempt)
    (now1 now2 : List Char) : Option ResponseData × Store × List Stage :=
  let tr := transcribe_audio sttSt sttR
  let store2 := pipelineUserStore store sid sttSt sttR now1
  let hist := get_conversation_history store2 sid 5
  match generate_response llmSt tr.text hist pick llmR with
  | none => (none, store2, [.stt, .llm])
  | some lr =>
    let store3 := (add_message store2 sid .assistant lr.response none now2).2
    let ar := generate_audio ttsSt ttsR lr.response 2
    let rd : ResponseData :=
      { session_id := sid, user_message := tr.text,
        assistant_response := lr.response, audio_url := ar.audio_url,
        use_browser_tts := ar.use_browser_tts, audio_source := ar.source,
        voice_used := ar.voice_used,
        total_messages := (store3 sid).elim 0 (fun s => s.message_count),
        transcription_confidence := tr.confidence,
        stt_status := tr.status, llm_status := lr.status, tts_status := ar.status }
    (some rd, store3, [.stt, .llm, .tts])

/- Word-chunked streaming (main.stream_response_words). -/

structure LlmEvent where
  text : List Char
  is_complete : Bool
  is_fallback : Bool
deriving DecidableEq, Repr

/-- The loop body of stream_response_words: acc is the accumulated
    full_response, i the current index, n the total word count. -/
def streamWordsAux (fb : Bool) : List (List Char) → Nat → Nat → List Char → List LlmEvent
  | [], _, _, _ => []
  | w :: rest, i, n, acc =>
    let acc2 := acc ++ w ++ [' ']
    (if i % 3 = 0 ∨ i = n - 1 then
      [{ text := pyStrip acc2, is_complete := i == n - 1, is_fallback := fb }]
     else []) ++ streamWordsAux fb rest (i + 1) n acc2

/-- main.stream_response_words (the inter-chunk sleep is timing-only and
    dropped). -/
def stream_response_words (text : List Char) (is_fallback : Bool) : List LlmEvent :=
  let words := pySplit text
  streamWordsAux is_fallback words 0 words.length []

/- Streaming pipeline (main.stream_conversational_chat.generate_stream). -/

inductive StreamEvent
  | status (msg : List Char)
  | session (msg : List Char)
  | transcription (text : List Char) (confidence : Rat)
  | llmResponse (text : List Char) (is_complete : Bool) (is_fallback : Bool)
  | audioUrl (url : List Char) (source : List Char)
  | audioBrowser (text : List Char) (source : List Char)
  | error (msg : List Char)
  | complete (session_id : Nat) (message_count : Nat)
deriving DecidableEq, Repr

def processingMsg : List Char := ("Processing audio...").toList

def transcribingMsg : List Char := ("Transcribing your voice...").toList

def thinkingMsg : List Char := ("AI is thinking...").toList

def generatingAudioMsg : List Char := ("Generating audio...").toList

def fileFailMsg : List Char := ("Failed to process audio file. Please try again.").toList

def newSessionMsg : List Char := ("New session created").toList

def streamTechDiffText : List Char :=
  decodeLit ("I*m experiencing some technical difficulties. Could you please try again?")

structure StreamRun where
  events : List StreamEvent
  calls : List Stage
  store : Store

/-- generate_stream.  fileOk models whether saving the uploaded file succeeds;
    remote outcomes and the PRNG draw are explicit; frame dispatch follows the
    source's event order.  The SimpleResponse except-path is taken exactly when
    generate_response raises (returns none). -/
def generate_stream (store : Store) (sid : Nat) (fileOk : Bool)
    (sttSt : SvcState) (sttR : SttRemote)
    (llmSt : SvcState) (llmR : LlmRemote) (pick : Fin 4)
    (ttsSt : SvcState) (ttsR : Nat → MurfAttempt)
    (now1 now2 createdAt : List Char) : StreamRun :=
  let ev0 : List StreamEvent := [.status processingMsg]
  let sessionEvs : List StreamEvent :=
    if (store sid).isSome then [] else [.session newSessionMsg]
  let store1 :=
    if (store sid).isSome then store else (create_session store (some sid) 0 createdAt).2
  if !fileOk then
    { events := ev0 ++ sessionEvs ++ [.error fileFailMsg], calls := [], store := store1 }
  else
    let evA := ev0 ++ sessionEvs ++ [.status transcribingMsg]
    let tr := transcribe_audio sttSt sttR
    if tr.status = .error then
      { events := evA ++ [.error tr.text], calls := [.stt], store := store1 }
    else
      let evB := evA ++ [.transcription tr.text tr.confidence]
      let store2 := (add_message store1 sid .user tr.text (some tr.confidence) now1).2
      let evC := evB ++ [.status thinkingMsg]
      let hist := get_conversation_history store2 sid 10
      match generate_response llmSt tr.text hist pick llmR with
      | some lr =>
        let isFb := lr.status ≠ .success
        let evD := evC ++ (stream_response_words lr.response isFb).map
          (fun e => StreamEvent.llmResponse e.text e.is_complete e.is_fallback)
        let store3 := (add_message store2 sid .assistant lr.response none now2).2
        let evE := evD ++ [.status generatingAudioMsg]
        let ar := generate_audio ttsSt ttsR lr.response 2
        let evF := evE ++
          (match ar.audio_url with
           | some u =>
             if u.isEmpty then [StreamEvent.audioBrowser lr.response (("browser").toList)]
             else [StreamEvent.audioUrl u ar.source]
           | none => [StreamEvent.audioBrowser lr.response (("browser").toList)])
        let cnt := (store3 sid).elim 0 (fun s => s.message_count)
        { events := evF ++ [.complete sid cnt], calls := [.stt, .llm, .tts],
          store := store3 }
      | none =>
        let fb := streamTechDiffText
        let evD := evC ++ (stream_response_words fb true).map
          (fun e => StreamEvent.llmResponse e.text e.is_complete e.is_fallback)
        let evE := evD ++ [.status generatingAudioMsg]
        let ar := generate_audio ttsSt ttsR fb 2
        let evF := evE ++
          (match ar.audio_url with
           | some u =>
             if u.isEmpty then [StreamEvent.audioBrowser fb (("browser").toList)]
             else [StreamEvent.audioUrl u ar.source]
           | none => [StreamEvent.audioBrowser fb (("browser").toList)])
        let cnt := (store2 sid).elim 0 (fun s => s.message_count)
        { events := evF ++ [.complete sid cnt], calls := [.stt, .llm, .tts],
          store := store2 }

/- Administrative error simulation (main.simulate_error).  Only the
   per-service key swap is modelled; original_keys holds the configured keys
   and a restore is applied only when the stored original is truthy. -/

structure Services where
  stt : SvcState
  llm : SvcState
  tts : SvcState
deriving DecidableEq, Repr

inductive ErrTarget
  | stt
  | llm
  | tts
  | all
deriving DecidableEq, Repr

def simulate_disable (sv : Services) (t : ErrTarget) : Services :=
  { stt := if t = .stt ∨ t = .all then set_api_key sv.stt sentinelKey else sv.stt,
    llm := if t = .llm ∨ t = .all then set_api_key sv.llm sentinelKey else sv.llm,
    tts := if t = .tts ∨ t = .all then set_api_key sv.tts sentinelKey else sv.tts }

def restoreKey (st : SvcState) (orig : Option (List Char)) : SvcState :=
  match orig with
  | some k => if k.isEmpty then st else set_api_key st k
  | none => st

def simulate_enable (sv : Services) (origStt origLlm origTts : Option (List Char))
    (t : ErrTarget) : Services :=
  { stt := if t = .stt ∨ t = .all then restoreKey sv.stt origStt else sv.stt,
    llm := if t = .llm ∨ t = .all then restoreKey sv.llm origLlm else sv.llm,
    tts := if t = .tts ∨ t = .all then restoreKey sv.tts origTts else sv.tts }

/- Binary audio-chunk session (websocket_audio_handler.py).  One connection
   holds one audio session entry; inbound frames are dispatched on their kind
   (text control token vs binary payload), matching the source's
   receive_text / receive_bytes split.  The destination file is modelled as
   the list of chunks written. -/

structure AudioSessionInfo where
  chunks_received : Nat
  total_bytes : Nat
  written : List (List Nat)
deriving DecidableEq, Repr

inductive OutMsg
  | welcome
  | recordingStarted
  | recordingStopped
  | progress (chunks : Nat) (bytes : Nat)
  | warningIdle
deriving DecidableEq, Repr

inductive WsMsg
  | text (s : List Char)
  | binary (b : List Nat)
deriving DecidableEq, Repr

structure WsState where
  active : Bool
  info : Option AudioSessionInfo
  out : List OutMsg
deriving DecidableEq, Repr

def startToken : List Char := ("start_recording").toList

def stopToken : List Char := ("stop_recording").toList

/-- One iteration of the websocket_endpoint loop. -/
def wsStep (st : WsState) (m : WsMsg) : WsState :=
  match m with
  | .text s =>
    if s = startToken then
      if !st.active then
        { active := true,
          info := some { chunks_received := 0, total_bytes := 0, written := [] },
          out := st.out ++ [.recordingStarted] }
      else st
    else if s = stopToken then
      if st.active then
        { st with active := false, out := st.out ++ [.recordingStopped] }
      else st
    else st
  | .binary b =>
    if st.active then
      match st.info with
      | some i =>
        let i2 : AudioSessionInfo :=
          { chunks_received := i.chunks_received + 1,
            total_bytes := i.total_bytes + b.length,
            written := i.written ++ [b] }
        let outStep : List OutMsg :=
          if i2.chunks_received % 10 = 0 then
            [.progress i2.chunks_received i2.total_bytes]
          else []
        { active := st.active, info := some i2, out := st.out ++ outStep }
      | none => st
    else
      { st with out := st.out ++ [.warningIdle] }

def wsInit : WsState := { active := false, info := none, out := [.welcome] }

def wsRun (msgs : List WsMsg) : WsState := msgs.foldl wsStep wsInit

def isProgress : OutMsg → Bool
  | .progress _ _ => true
  | _ => false

/- Theorems. -/

/-- A successful _call_murf_api result carries exactly the text it was given. -/
lemma murfCall_text (a : MurfAttempt) (t : List Char) (resp : AudioResponse)
    (h : murfCall a t = some resp) : resp.text = t := by
  cases a with
  | timeout => simp [murfCall] at h
  | connError => simp [murfCall] at h
  | exc m => simp [murfCall] at h
  | http status audioFile =>
    by_cases hs : status = 200
    · cases audioFile with
      | none => simp [murfCall, hs] at h
      | some url =>
        by_cases hu : url.isEmpty
        · simp [murfCall, hs, hu] at h
        · simp [murfCall, hs, hu] at h
          subst h
          rfl
    · simp [murfCall, hs] at h

/-- Any response produced by the Murf retry loop carries the text it was
given. -/
lemma murfLoop_text (r : Nat → MurfAttempt) (t : List Char) :
    ∀ k i resp, murfLoop r t i k = some resp → resp.text = t := by
  intro k
  induction k with
  | zero => intro i resp h; simp [murfLoop] at h
  | succ k ih =>
    intro i resp h
    simp only [murfLoop] at h
    cases hc : murfCall (r i) t with
    | none =>
      rw [hc] at h
      exact ih _ _ h
    | some resp2 =>
      rw [hc] at h
      have h2 : some resp2 = some resp := h
      cases h2
      exact murfCall_text _ _ _ hc

/-- C5: Synthesizer input strictly longer than the ceiling is truncated to the
first ceiling-3 characters plus the 3-character ellipsis, for a total of
exactly ceiling characters; input at or under the ceiling is unchanged; the
ceiling used by the service is 3000; and generate_audio both sends and reports
the truncated text. -/
theorem c5_tts_truncation (m : Nat) (text : List Char) (st : SvcState)
    (r : Nat → MurfAttempt) (k : Nat) (h3 : 3 ≤ m) :
    (text.length > m →
      truncateForTTS m text = text.take (m - 3) ++ ellipsisChars ∧
      (truncateForTTS m text).length = m) ∧
    (text.length ≤ m → truncateForTTS m text = text) ∧
    maxTextLength = 3000 ∧
    (generate_audio st r text k).text = truncateForTTS maxTextLength text := by
  refine ⟨fun hgt => ⟨?_, ?_⟩, fun hle => ?_, rfl, ?_⟩
  · simp [truncateForTTS, hgt]
  · simp only [truncateForTTS, hgt, if_pos, List.length_append, List.length_take]
    simp [ellipsisChars]
    omega
  · simp [truncateForTTS]
    omega
  · unfold generate_audio
    split
    · cases hml : murfLoop r (truncateForTTS maxTextLength text) 0 k with
      | none => simp [hml, browserFallback]
      | some resp => simp [hml, murfLoop_text r _ k 0 resp hml]
    · simp [browserFallback]

def c5Text : List Char := List.replicate 3001 'a'

/-- C5 witness: a 3001-character input is truncated to exactly 3000
characters, and a 5-character input is unchanged. -/
theorem c5_tts_truncation_witness :
    (truncateForTTS 3000 c5Text = c5Text.take 2997 ++ ellipsisChars ∧
      (truncateForTTS 3000 c5Text).length = 3000) ∧
    truncateForTTS 3000 (("hello").toList) = ("hello").toList :=
  ⟨(c5_tts_truncation 3000 c5Text (svcInit none) (fun _ => .timeout) 2
      (by decide)).1 (by simp only [c5Text, List.length_replicate]; omega),
   ((c5_tts_truncation 3000 (("hello").toList) (svcInit none) (fun _ => .timeout) 2
      (by decide)).2).1 (by decide)⟩

def c6Msg : ChatMessage :=
  { role := .user, content := ("hi").toList, timestamp := [], confidence := none }

def c6Session : ChatSession :=
  { session_id := 0, messages := [c6Msg], message_count := 1, created_at := none }

def c6Store : Store := storeSet emptyStore 0 c6Session

/-- C6 counterexample: for a session holding one message, history(id, 0)
returns that message, so the result exceeds the bound max = 0 (Python
messages[-0:] is the whole list). -/
theorem c6_counterexample :
    (get_conversation_history c6Store 0 0).length = 1 ∧
    ¬ (get_conversation_history c6Store 0 0).length ≤ 0 := by
  constructor
  · rfl
  · decide

/-- C6 (amended: for every bound max >= 1): history(id, max) on an unknown id
is empty, and on a known session returns the suffix of the most recent
min(len, max) turns in append order; at max = 0 with a nonempty session the
code instead returns the entire history. -/
theorem c6_history_bound (store : Store) (sid maxm : Nat) :
    (store sid = none → get_conversation_history store sid maxm = []) ∧
    (1 ≤ maxm → ∀ s, store sid = some s →
      get_conversation_history store sid maxm =
        s.messages.drop (s.messages.length - maxm) ∧
      (get_conversation_history store sid maxm).length =
        min s.messages.length maxm ∧
      List.IsSuffix (get_conversation_history store sid maxm) s.messages) := by
  constructor
  · intro h; simp [get_conversation_history, get_session, h]
  · intro hmax s hs
    have hres : get_conversation_history store sid maxm =
        s.messages.drop (s.messages.length - maxm) := by
      simp only [get_conversation_history, get_session, hs]
      by_cases hlen : s.messages.length > maxm
      · rw [if_pos hlen]
        unfold pyLastSlice
        rw [if_neg (by omega : maxm ≠ 0)]
      · rw [if_neg hlen]
        have h0 : s.messages.length - maxm = 0 := by omega
        rw [h0, List.drop_zero]
    refine ⟨hres, ?_, ?_⟩
    · rw [hres, List.length_drop]
      omega
    · rw [hres]
      exact List.drop_suffix _ _

/-- C6 witness: unknown session id yields the empty history, and a
one-message session with max = 2 yields that message back. -/
theorem c6_history_bound_witness :
    get_conversation_history emptyStore 7 3 = [] ∧
    get_conversation_history c6Store 0 2 =
      c6Session.messages.drop (c6Session.messages.length - 2) :=
  ⟨(c6_history_bound emptyStore 7 3).1 rfl,
   (((c6_history_bound c6Store 0 2).2 (by decide) c6Session rfl).1)⟩

/-- C9: create_session with an existing id returns the stored Session and
leaves the store untouched; with no id it keys the store by the generated
identifier and creates a fresh empty session, leaving every other id
unchanged. -/
theorem c9_get_or_create (store : Store) (sid uuid : Nat) (s : ChatSession)
    (c : List Char) :
    (store sid = some s → create_session store (some sid) uuid c = (s, store)) ∧
    (store uuid = none →
      (create_session store none uuid c).1 =
        { session_id := uuid, messages := [], message_count := 0,
          created_at := some c } ∧
      (create_session store none uuid c).2 uuid =
        some { session_id := uuid, messages := [], message_count := 0,
               created_at := some c } ∧
      ∀ j, j ≠ uuid → (create_session store none uuid c).2 j = store j) := by
  constructor
  · intro h; simp [create_session, h]
  · intro h
    refine ⟨by simp [create_session, h], by simp [create_session, h, storeSet], ?_⟩
    intro j hj
    simp [create_session, h, storeSet, hj]

def c9Session : ChatSession :=
  { session_id := 5, messages := [c6Msg], message_count := 1, created_at := none }

def c9Store : Store := storeSet emptyStore 5 c9Session

/-- C9 witness: creating with the existing id 5 returns the stored session and
the untouched store; creating with a fresh generated id 9 yields the new empty
session. -/
theorem c9_get_or_create_witness :
    create_session c9Store (some 5) 9 [] = (c9Session, c9Store) ∧
    (create_session c9Store none 9 []).1 =
      { session_id := 9, messages := [], message_count := 0,
        created_at := some [] } :=
  ⟨(c9_get_or_create c9Store 5 9 c9Session []).1 rfl,
   ((c9_get_or_create c9Store 5 9 c9Session []).2 rfl).1⟩

def disabledSvc : SvcState := svcInit (some sentinelKey)

/-- C3 counterexample: with the Transcriber credential set to the disabled
sentinel, the next invocation returns the Failure variant (status error), not
Fallback as the claim states. -/
theorem c3_counterexample :
    (transcribe_audio (set_api_key (svcInit (some (("key123").toList))) sentinelKey)
      (.transcript none (("hello").toList) 1)).status = ServiceStatus.error ∧
    ServiceStatus.error ≠ ServiceStatus.fallback := by
  exact ⟨rfl, by decide⟩

/-- C3 (amended): setting a credential to the disabled sentinel makes the
stage unavailable (also through the administrative all-stages action); an
unavailable Responder or Synthesizer returns Fallback immediately and an
unavailable Transcriber returns Failure immediately, in every case without
any dependence on the remote outcome (no remote call); re-applying the
original credential restores the original state. -/
theorem c3_disable_enable (st : SvcState) (text : List Char)
    (hist : List ChatMessage) (pick : Fin 4) (k : List Char) (sv : Services) :
    (set_api_key st sentinelKey).is_available = false ∧
    ((simulate_disable sv .all).stt.is_available = false ∧
     (simulate_disable sv .all).llm.is_available = false ∧
     (simulate_disable sv .all).tts.is_available = false) ∧
    (st.is_available = false →
      (∀ r1 r2 : SttRemote, transcribe_audio st r1 = transcribe_audio st r2) ∧
      (∀ r : SttRemote, (transcribe_audio st r).status = ServiceStatus.error)) ∧
    (st.is_available = false → ∀ r : LlmRemote,
      generate_response st text hist pick r =
        (fallbackResponse text hist pick).map (fun fb =>
          { response := fb, status := .fallback,
            service_used := ("fallback").toList, tokens_used := none,
            error_message := some (("API key missing or disabled").toList) })) ∧
    (st.is_available = false → ∀ (r : Nat → MurfAttempt) (n : Nat),
      generate_audio st r text n =
        browserFallback (truncateForTTS maxTextLength text)) ∧
    (set_api_key (set_api_key st sentinelKey) k = set_api_key st k) ∧
    (st.api_key = some k → st.is_available = checkAvailability (some k) →
      set_api_key (set_api_key st sentinelKey) k = st) := by
  refine ⟨rfl, ⟨?_, ?_, ?_⟩, fun hna => ⟨?_, ?_⟩, fun hna r => ?_,
    fun hna r n => ?_, rfl, fun hk ha => ?_⟩
  · simp [simulate_disable, set_api_key]
    decide
  · simp [simulate_disable, set_api_key]
    decide
  · simp [simulate_disable, set_api_key]
    decide
  · intro r1 r2
    simp [transcribe_audio, hna]
  · intro r
    simp [transcribe_audio, hna]
  · simp [generate_response, hna]
  · simp [generate_audio, hna]
  · cases st with
    | mk key avail =>
      simp only at hk ha
      subst hk
      subst ha
      rfl

/-- C3 witness: with a service disabled by the sentinel, the Transcriber
result is remote-independent and a Failure, the Responder returns the mapped
fallback, the Synthesizer returns the browser fallback, and re-applying the
stored key restores the state. -/
theorem c3_disable_enable_witness :
    transcribe_audio disabledSvc (SttRemote.transcript none (("hi").toList) 1) =
      transcribe_audio disabledSvc (SttRemote.exc []) ∧
    (transcribe_audio disabledSvc (SttRemote.exc [])).status =
      ServiceStatus.error ∧
    generate_response disabledSvc (("zzz").toList) [] 2 .timeout =
      (fallbackResponse (("zzz").toList) [] 2).map (fun fb =>
        { response := fb, status := .fallback,
          service_used := ("fallback").toList, tokens_used := none,
          error_message := some (("API key missing or disabled").toList) }) ∧
    generate_audio disabledSvc (fun _ => .timeout) (("zzz").toList) 2 =
      browserFallback (truncateForTTS maxTextLength (("zzz").toList)) ∧
    set_api_key (set_api_key disabledSvc sentinelKey) sentinelKey = disabledSvc := by
  have h := c3_disable_enable disabledSvc (("zzz").toList) [] 2 sentinelKey
    { stt := disabledSvc, llm := disabledSvc, tts := disabledSvc }
  exact ⟨(h.2.2.1 rfl).1 _ _, (h.2.2.1 rfl).2 _, h.2.2.2.1 rfl _,
    h.2.2.2.2.1 rfl _ 2, h.2.2.2.2.2.2 rfl rfl⟩

/-- C8 counterexample: with the Responder unavailable, the same input text and
history yield different placeholder payloads for two different PRNG draws, so
the Fallback payload is not deterministic. -/
theorem c8_counterexample :
    generate_response disabledSvc (("zzz").toList) [] 0 .timeout ≠
      generate_response disabledSvc (("zzz").toList) [] 1 .timeout := by
  decide

/-- For an input in one of the contextual categories, the fallback payload
does not depend on the PRNG draw. -/
lemma fallbackResponse_pick_irrel (text : List Char) (hist : List ChatMessage)
    (p1 p2 : Fin 4) (hctx : contextualInput text = true) :
    fallbackResponse text hist p1 = fallbackResponse text hist p2 := by
  unfold fallbackResponse
  cases hex : extractUserName hist with
  | error e => rfl
  | ok un2 =>
    simp only
    split_ifs with h1 h2 h3 h4 h5 <;> try rfl
    exfalso
    simp only [contextualInput, Bool.or_eq_true] at hctx
    tauto

/-- For an input in no contextual category, the fallback payload is the
PRNG-selected generic string. -/
lemma fallbackResponse_generic (text : List Char) (hist : List ChatMessage)
    (pick : Fin 4) (un : Option (List Char))
    (hctx : contextualInput text = false) (hex : extractUserName hist = .ok un) :
    fallbackResponse text hist pick = some (genericFallback pick) := by
  have hc : ∀ b : Bool,
      (contextualInput text = false) → b = true →
      (greetingNeedles.any (fun g => strIn g (toLowerStr text)) = b ∨
        yourNameNeedles.any (fun g => strIn g (toLowerStr text)) = b ∨
        myNameNeedles.any (fun g => strIn g (toLowerStr text)) = b ∨
        thanksNeedles.any (fun g => strIn g (toLowerStr text)) = b ∨
        questionNeedles.any (fun g => strIn g (toLowerStr text)) = b) → False := by
    intro b hf hb hor
    subst hb
    simp only [contextualInput, Bool.or_eq_true] at hf
    rcases hor with h | h | h | h | h <;> simp [h] at hf
  unfold fallbackResponse
  rw [hex]
  simp only
  split_ifs with h1 h2 h3 h4 h5 <;> try rfl
  · exact absurd (hc true hctx rfl (Or.inl h1)) id
  · exact absurd (hc true hctx rfl (Or.inr (Or.inl h2))) id
  · exact absurd (hc true hctx rfl (Or.inr (Or.inr (Or.inl h3)))) id
  · exact absurd (hc true hctx rfl (Or.inr (Or.inr (Or.inr (Or.inl h4))))) id
  · exact absurd (hc true hctx rfl (Or.inr (Or.inr (Or.inr (Or.inr h5))))) id

/-- C8 (amended): an unavailable Responder never depends on the remote
outcome (no remote call); its placeholder is deterministic whenever the input
matches one of the contextual categories; for non-contextual inputs the
payload is one of four fixed strings selected by the PRNG draw, so it may
differ between invocations. -/
theorem c8_fallback_determinism (st : SvcState) (text : List Char)
    (hist : List ChatMessage) (pick p1 p2 : Fin 4) (r r1 r2 : LlmRemote)
    (un : Option (List Char)) :
    (st.is_available = false →
      generate_response st text hist pick r1 =
        generate_response st text hist pick r2) ∧
    (st.is_available = false → contextualInput text = true →
      generate_response st text hist p1 r =
        generate_response st text hist p2 r) ∧
    (st.is_available = false → contextualInput text = false →
      extractUserName hist = .ok un →
      generate_response st text hist pick r =
        some { response := genericFallback pick, status := .fallback,
               service_used := ("fallback").toList, tokens_used := none,
               error_message := some (("API key missing or disabled").toList) }) := by
  refine ⟨fun hna => ?_, fun hna hctx => ?_, fun hna hctx hex => ?_⟩
  · simp [generate_response, hna]
  · simp only [generate_response, hna, Bool.not_false, if_pos]
    rw [fallbackResponse_pick_irrel text hist p1 p2 hctx]
  · simp only [generate_response, hna, Bool.not_false, if_pos]
    rw [fallbackResponse_generic text hist pick un hctx hex]
    rfl

/-- C8 witness: with the Responder disabled, a greeting input gives the same
result across remote outcomes and across PRNG draws, and a non-contextual
input gives the PRNG-indexed generic fallback. -/
theorem c8_fallback_determinism_witness :
    generate_response disabledSvc (("hello").toList) [] 0 .timeout =
      generate_response disabledSvc (("hello").toList) [] 0 .connError ∧
    generate_response disabledSvc (("hello").toList) [] 0 .timeout =
      generate_response disabledSvc (("hello").toList) [] 3 .timeout ∧
    generate_response disabledSvc (("zzz").toList) [] 2 .timeout =
      some { response := genericFallback 2, status := .fallback,
             service_used := ("fallback").toList, tokens_used := none,
             error_message := some (("API key missing or disabled").toList) } := by
  have h1 := c8_fallback_determinism disabledSvc (("hello").toList) [] 0 0 3
    .timeout .timeout .connError none
  have h2 := c8_fallback_determinism disabledSvc (("zzz").toList) [] 2 0 3
    .timeout .timeout .connError none
  exact ⟨h1.1 rfl, h1.2.1 rfl (by decide), h2.2.2 rfl (by decide) rfl⟩

def degenerateHist : List ChatMessage :=
  [{ role := .user, content := ("my name is").toList, timestamp := [],
     confidence := none }]

/-- C2: at the failing input (Responder available, history containing a user
turn whose content is exactly "my name is", remote answering HTTP 500) the
adapter raises instead of returning a StageResult: the contextual-fallback
name extraction evaluates content.split("my name is")[1].strip().split()[0]
on an empty list and the except handler re-raises by calling the same
function again, so the IndexError escapes (modelled as none). -/
theorem c2_llm_exception_escape :
    (svcInit (some (("key").toList))).is_available = true ∧
    generate_response (svcInit (some (("key").toList))) (("x").toList)
      degenerateHist 0 (.http 500 .noCandidates) = none ∧
    generate_response (svcInit (some (("key").toList))) (("x").toList)
      degenerateHist 0 (.http 200 (.withText (("ok").toList) none)) =
      some { response := ("ok").toList, status := .success,
             service_used := ("gemini").toList, tokens_used := none,
             error_message := none } := by
  refine ⟨rfl, ?_, ?_⟩ <;> decide

def c7Frame : List Nat := List.replicate 1000 0

def c7Scenario : List WsMsg :=
  [WsMsg.text startToken] ++ List.replicate 25 (WsMsg.binary c7Frame) ++
    [WsMsg.text stopToken]

set_option maxRecDepth 8000 in
/-- C7: after start_recording, 25 binary frames of 1000 bytes and
stop_recording, the counters read 25 chunks and 25000 bytes, exactly the two
progress notifications after chunks 10 and 20 were fired, the session ended
Idle, and any binary payload received while Idle yields only a warning,
leaving counters and written data untouched. -/
theorem c7_audio_chunk_session :
    (wsRun c7Scenario).info.map
      (fun i => (i.chunks_received, i.total_bytes)) = some (25, 25000) ∧
    (wsRun c7Scenario).out.filter isProgress =
      [OutMsg.progress 10 10000, OutMsg.progress 20 20000] ∧
    (wsRun c7Scenario).active = false ∧
    (∀ (st : WsState) (b : List Nat), st.active = false →
      wsStep st (.binary b) = { st with out := st.out ++ [OutMsg.warningIdle] }) := by
  refine ⟨by decide, by decide, by decide, ?_⟩
  intro st b h
  simp [wsStep, h]

/-- C7 witness: a binary frame arriving on a fresh (Idle) connection yields
exactly the warning notification. -/
theorem c7_audio_chunk_session_witness :
    wsStep wsInit (.binary [0, 1]) =
      { wsInit with out := wsInit.out ++ [OutMsg.warningIdle] } :=
  c7_audio_chunk_session.2.2.2 wsInit [0, 1] rfl

/-- The invariant of C10: every stored session's message_count equals the
length of its messages list. -/
def StoreInv (st : Store) : Prop :=
  ∀ id s, st id = some s → s.message_count = s.messages.length

lemma storeInv_set (st : Store) (sid : Nat) (s : ChatSession) (h : StoreInv st)
    (hs : s.message_count = s.messages.length) : StoreInv (storeSet st sid s) := by
  intro j t ht
  unfold storeSet at ht
  split at ht
  · cases ht; exact hs
  · exact h _ _ ht

lemma storeInv_create (st : Store) (o : Option Nat) (u : Nat) (c : List Char)
    (h : StoreInv st) : StoreInv (create_session st o u c).2 := by
  simp only [create_session]
  cases ho : st (o.getD u) with
  | some s => exact h
  | none =>
    exact storeInv_set st (o.getD u)
      { session_id := o.getD u, messages := [], message_count := 0,
        created_at := some c } h rfl

lemma storeInv_ensure (st : Store) (sid : Nat) (now : List Char)
    (h : StoreInv st) : StoreInv (ensureSession st sid now) := by
  unfold ensureSession
  split
  · exact h
  · exact storeInv_create st (some sid) 0 now h

lemma ensureSession_isSome (st : Store) (sid : Nat) (now : List Char) :
    (ensureSession st sid now sid).isSome := by
  unfold ensureSession
  by_cases hs : (st sid).isSome
  · rw [if_pos hs]
    exact hs
  · rw [if_neg hs]
    unfold create_session
    simp only [Option.getD_some]
    cases ho : st sid with
    | some s => exact absurd (by simp [ho]) hs
    | none => simp [storeSet]

lemma ensureSession_of_isSome (st : Store) (sid : Nat) (now : List Char)
    (h : (st sid).isSome) : ensureSession st sid now = st := by
  unfold ensureSession
  rw [if_pos h]

lemma add_message_store_eq (store : Store) (sid : Nat) (role : Role)
    (content : List Char) (cf : Option Rat) (now : List Char) (s : ChatSession)
    (hs : ensureSession store sid now sid = some s) :
    (add_message store sid role content cf now).2 =
      storeSet (ensureSession store sid now) sid
        { s with
          messages := s.messages ++
            [{ role := role, content := content, timestamp := now,
               confidence := cf }],
          message_count := s.message_count + 1 } := by
  simp only [add_message]
  rw [hs]

lemma add_message_lookup (store : Store) (sid : Nat) (role : Role)
    (content : List Char) (cf : Option Rat) (now : List Char) (s : ChatSession)
    (hs : ensureSession store sid now sid = some s) :
    (add_message store sid role content cf now).2 sid =
      some { s with
        messages := s.messages ++
          [{ role := role, content := content, timestamp := now,
             confidence := cf }],
        message_count := s.message_count + 1 } := by
  rw [add_message_store_eq store sid role content cf now s hs]
  simp [storeSet]

lemma storeInv_add (store : Store) (sid : Nat) (role : Role)
    (content : List Char) (cf : Option Rat) (now : List Char)
    (h : StoreInv store) : StoreInv (add_message store sid role content cf now).2 := by
  obtain ⟨s, hs⟩ := Option.isSome_iff_exists.mp (ensureSession_isSome store sid now)
  rw [add_message_store_eq store sid role content cf now s hs]
  have hinv1 := storeInv_ensure store sid now h
  have hcnt := hinv1 sid s hs
  refine storeInv_set _ _ _ hinv1 ?_
  simp [hcnt]

lemma storeInv_pipelineUser (store : Store) (sid : Nat) (sttSt : SvcState)
    (sttR : SttRemote) (now1 : List Char) (h : StoreInv store) :
    StoreInv (pipelineUserStore store sid sttSt sttR now1) :=
  storeInv_add (ensureSession store sid now1) sid .user
    (transcribe_audio sttSt sttR).text
    (some (transcribe_audio sttSt sttR).confidence) now1
    (storeInv_ensure store sid now1 h)

/-- C10: message_count equals the messages length after every store
operation: create_session establishes it, add_message appends one message
and increments the count by one, clear_session resets both together, the
full pipeline preserves the invariant, and the total_messages it reports
equals the number of recorded turns of the session. -/
theorem c10_count_invariant (store : Store) (sid uuid : Nat) (o : Option Nat)
    (c now1 now2 : List Char) (role : Role) (content : List Char)
    (cf : Option Rat) (sttSt llmSt ttsSt : SvcState) (sttR : SttRemote)
    (llmR : LlmRemote) (pick : Fin 4) (ttsR : Nat → MurfAttempt) :
    (StoreInv store → StoreInv (create_session store o uuid c).2) ∧
    (StoreInv store → StoreInv (add_message store sid role content cf now1).2) ∧
    (∀ s, store sid = some s →
      (add_message store sid role content cf now1).2 sid =
        some { s with
          messages := s.messages ++
            [{ role := role, content := content, timestamp := now1,
               confidence := cf }],
          message_count := s.message_count + 1 }) ∧
    (StoreInv store → StoreInv (clear_session store sid).2) ∧
    (∀ s, store sid = some s →
      (clear_session store sid).2 sid =
        some { s with messages := [], message_count := 0 }) ∧
    (StoreInv store → StoreInv
      (process_audio_message store sid sttSt sttR llmSt llmR pick ttsSt ttsR
        now1 now2).2.1) ∧
    (StoreInv store → ∀ rd,
      (process_audio_message store sid sttSt sttR llmSt llmR pick ttsSt ttsR
        now1 now2).1 = some rd →
      ∃ s, (process_audio_message store sid sttSt sttR llmSt llmR pick ttsSt
          ttsR now1 now2).2.1 sid = some s ∧
        rd.total_messages = s.messages.length) := by
  refine ⟨fun h => storeInv_create store o uuid c h,
    fun h => storeInv_add store sid role content cf now1 h,
    fun s hs => ?_, fun h => ?_, fun s hs => ?_, fun h => ?_, fun h rd hrd => ?_⟩
  · have hsome : (store sid).isSome := by simp [hs]
    have he := ensureSession_of_isSome store sid now1 hsome
    exact add_message_lookup store sid role content cf now1 s (by rw [he]; exact hs)
  · unfold clear_session
    cases hc : store sid with
    | some s => exact storeInv_set store sid _ h rfl
    | none => exact h
  · unfold clear_session
    rw [hs]
    simp [storeSet]
  · simp only [process_audio_message]
    cases hg : generate_response llmSt (transcribe_audio sttSt sttR).text
        (get_conversation_history (pipelineUserStore store sid sttSt sttR now1)
          sid 5) pick llmR with
    | none =>
      exact storeInv_pipelineUser store sid sttSt sttR now1 h
    | some lr =>
      exact storeInv_add (pipelineUserStore store sid sttSt sttR now1) sid
        .assistant lr.response none now2
        (storeInv_pipelineUser store sid sttSt sttR now1 h)
  · revert hrd
    simp only [process_audio_message]
    cases hg : generate_response llmSt (transcribe_audio sttSt sttR).text
        (get_conversation_history (pipelineUserStore store sid sttSt sttR now1)
          sid 5) pick llmR with
    | none =>
      intro hrd
      simp at hrd
    | some lr =>
      intro hrd
      obtain ⟨s2, hs2⟩ := Option.isSome_iff_exists.mp
        (ensureSession_isSome (pipelineUserStore store sid sttSt sttR now1)
          sid now2)
      have hlook := add_message_lookup
        (pipelineUserStore store sid sttSt sttR now1) sid .assistant
        lr.response none now2 s2 hs2
      have hinv3 := storeInv_add (pipelineUserStore store sid sttSt sttR now1)
        sid .assistant lr.response none now2
        (storeInv_pipelineUser store sid sttSt sttR now1 h)
      have h2 : _ = rd := Option.some.inj hrd
      refine ⟨_, hlook, ?_⟩
      rw [← h2]
      show ((add_message (pipelineUserStore store sid sttSt sttR now1) sid
          .assistant lr.response none now2).2 sid).elim 0
          (fun s => s.message_count) = _
      rw [hlook]
      simp only [Option.elim]
      exact hinv3 sid _ hlook

def rdDefault : ResponseData :=
  { session_id := 0, user_message := [], assistant_response := [],
    audio_url := none, use_browser_tts := true, audio_source := [],
    voice_used := [], total_messages := 0, transcription_confidence := 0,
    stt_status := .error, llm_status := .error, tts_status := .error }

def c10Proc : Option ResponseData × Store × List Stage :=
  process_audio_message c9Store 5 disabledSvc (.transcript none [] 0)
    disabledSvc .timeout 0 disabledSvc (fun _ => .timeout) [] []

/-- C10 witness: on a store holding session 5 with one message, add_message
appends and increments together, clear_session zeroes both together, and a
full pipeline run reports total_messages equal to the recorded turn count. -/
theorem c10_count_invariant_witness :
    (add_message c9Store 5 .assistant (("ok").toList) none []).2 5 =
      some { c9Session with
        messages := c9Session.messages ++
          [{ role := .assistant, content := ("ok").toList, timestamp := [],
             confidence := none }],
        message_count := c9Session.message_count + 1 } ∧
    (clear_session c9Store 5).2 5 =
      some { c9Session with messages := [], message_count := 0 } ∧
    ∃ s, c10Proc.2.1 5 = some s ∧
      (c10Proc.1.getD rdDefault).total_messages = s.messages.length := by
  have hinv : StoreInv c9Store := by
    intro id s h
    unfold c9Store storeSet emptyStore at h
    split at h
    · cases h; rfl
    · cases h
  have h := c10_count_invariant c9Store 5 0 none [] [] [] .assistant
    (("ok").toList) none disabledSvc disabledSvc disabledSvc
    (.transcript none [] 0) .timeout 0 (fun _ => .timeout)
  refine ⟨h.2.2.1 c9Session rfl, h.2.2.2.2.1 c9Session rfl, ?_⟩
  exact h.2.2.2.2.2.2 hinv (c10Proc.1.getD rdDefault) (by decide)

def c1Proc : Option ResponseData × Store × List Stage :=
  process_audio_message emptyStore 0 disabledSvc (.transcript none [] 0)
    disabledSvc .timeout 0 disabledSvc (fun _ => .timeout) [] []

/-- C1 counterexample: in the non-streaming pipeline a Transcriber Failure
does not stop the run: the Responder and Synthesizer are both invoked and an
assistant turn is recorded (the session ends with 2 messages). -/
theorem c1_counterexample :
    (transcribe_audio disabledSvc (SttRemote.transcript none [] 0)).status =
      ServiceStatus.error ∧
    Stage.llm ∈ c1Proc.2.2 ∧
    Stage.tts ∈ c1Proc.2.2 ∧
    (c1Proc.2.1 0).elim 0 (fun s => s.message_count) = 2 := by
  exact ⟨rfl, by decide, by decide, by decide⟩

/-- C1 (amended: the early-exit rule holds in the streaming pipeline only):
when the Transcriber returns Failure, generate_stream invokes no further
stage (calls = [stt]), emits only the status/session events followed by a
single terminal error event carrying the Transcriber failure text, and leaves
every session's messages unchanged (no user or assistant turn is recorded);
the non-streaming pipeline instead continues through all three stages. -/
theorem c1_stream_early_exit (store : Store) (sid : Nat)
    (sttSt llmSt ttsSt : SvcState) (sttR : SttRemote) (llmR : LlmRemote)
    (pick : Fin 4) (ttsR : Nat → MurfAttempt) (now1 now2 cA : List Char)
    (herr : (transcribe_audio sttSt sttR).status = .error) :
    (generate_stream store sid true sttSt sttR llmSt llmR pick ttsSt ttsR
      now1 now2 cA).calls = [Stage.stt] ∧
    (generate_stream store sid true sttSt sttR llmSt llmR pick ttsSt ttsR
      now1 now2 cA).events =
      [StreamEvent.status processingMsg] ++
      (if (store sid).isSome then [] else [StreamEvent.session newSessionMsg]) ++
      [StreamEvent.status transcribingMsg,
       StreamEvent.error (transcribe_audio sttSt sttR).text] ∧
    (∀ j, ((generate_stream store sid true sttSt sttR llmSt llmR pick ttsSt
        ttsR now1 now2 cA).store j).elim ([] : List ChatMessage)
        (fun s => s.messages) = (store j).elim [] (fun s => s.messages)) := by
  simp only [generate_stream, Bool.not_true]
  rw [if_neg (by decide : ¬ ((false : Bool) = true))]
  rw [if_pos herr]
  refine ⟨rfl, by simp, ?_⟩
  intro j
  cases ho : store sid with
  | some s => simp [ho]
  | none =>
    have h1 : (store sid).isSome = false := by simp [ho]
    by_cases hj : j = sid
    · subst hj
      simp [h1, create_session, ho, storeSet]
    · simp [h1, create_session, ho, storeSet, hj]

def c1Run : StreamRun :=
  generate_stream emptyStore 3 true disabledSvc (.transcript none [] 0)
    disabledSvc .timeout 0 disabledSvc (fun _ => .timeout) [] [] []

/-- C1 witness: a streaming run with the Transcriber disabled invokes only
the Transcriber, ends in the error event, and records no turn. -/
theorem c1_stream_early_exit_witness :
    c1Run.calls = [Stage.stt] ∧
    c1Run.events =
      [StreamEvent.status processingMsg] ++
      (if (emptyStore 3).isSome then [] else [StreamEvent.session newSessionMsg]) ++
      [StreamEvent.status transcribingMsg,
       StreamEvent.error (transcribe_audio disabledSvc
         (.transcript none [] 0)).text] ∧
    (c1Run.store 3).elim ([] : List ChatMessage) (fun s => s.messages) =
      (emptyStore 3).elim [] (fun s => s.messages) := by
  have h := c1_stream_early_exit emptyStore 3 disabledSvc disabledSvc
    disabledSvc (.transcript none [] 0) .timeout 0 (fun _ => .timeout)
    [] [] [] rfl
  exact ⟨h.1, h.2.1, h.2.2 3⟩

/-- Canonical single-space join of a word list (what the cumulative text of
the final streaming event amounts to). -/
def joinWords : List (List Char) → List Char
  | [] => []
  | [w] => w
  | w :: r :: rest => w ++ ' ' :: joinWords (r :: rest)

/-- The accumulated full_response after consuming a word list: every word
followed by one space. -/
def joinSpace : List (List Char) → List Char
  | [] => []
  | w :: rest => w ++ ' ' :: joinSpace rest

lemma joinSpace_eq_joinWords (ws : List (List Char)) (h : ws ≠ []) :
    joinSpace ws = joinWords ws ++ [' '] := by
  induction ws with
  | nil => exact absurd rfl h
  | cons w rest ih =>
    cases rest with
    | nil => rfl
    | cons r rest2 =>
      show w ++ ' ' :: joinSpace (r :: rest2) = (w ++ ' ' :: joinWords (r :: rest2)) ++ [' ']
      rw [ih (by simp)]
      simp

/-- Number of emission indices of the streaming loop: indices j in
[i, i + k) with j divisible by 3 or j = n - 1. -/
def emitCount (i k n : Nat) : Nat :=
  match k with
  | 0 => 0
  | k + 1 => (if i % 3 = 0 ∨ i = n - 1 then 1 else 0) + emitCount (i + 1) k n

lemma streamWordsAux_length (fb : Bool) :
    ∀ (ws : List (List Char)) (i n : Nat) (acc : List Char),
      (streamWordsAux fb ws i n acc).length = emitCount i ws.length n := by
  intro ws
  induction ws with
  | nil => intro i n acc; rfl
  | cons w rest ih =>
    intro i n acc
    show (streamWordsAux fb (w :: rest) i n acc).length = emitCount i (rest.length + 1) n
    simp only [streamWordsAux, emitCount, List.length_append]
    rw [ih (i + 1) n (acc ++ w ++ [' '])]
    by_cases h : i % 3 = 0 ∨ i = n - 1
    · rw [if_pos h, if_pos h]
      rfl
    · rw [if_neg h, if_neg h]
      rfl

lemma emitCount_closed :
    ∀ (k i n : Nat), emitCount i k n =
      ((i + k + 2) / 3 - (i + 2) / 3) +
      (if i ≤ n - 1 ∧ n - 1 < i + k ∧ ¬(n - 1) % 3 = 0 then 1 else 0) := by
  intro k
  induction k with
  | zero =>
    intro i n
    simp only [emitCount]
    split_ifs with h
    · omega
    · omega
  | succ k ih =>
    intro i n
    simp only [emitCount]
    rw [ih (i + 1) n]
    split_ifs <;> omega

lemma pySplitAux_good :
    ∀ (s acc : List Char), (∀ c ∈ acc, c.isWhitespace = false) →
      ∀ w ∈ pySplitAux s acc, w ≠ [] ∧ ∀ c ∈ w, c.isWhitespace = false := by
  intro s
  induction s with
  | nil =>
    intro acc hacc w hw
    simp only [pySplitAux] at hw
    split at hw
    · simp at hw
    · rename_i hne
      simp only [List.mem_singleton] at hw
      subst hw
      constructor
      · simp only [ne_eq, List.reverse_eq_nil_iff]
        intro h
        rw [h] at hne
        simp at hne
      · intro c hc
        exact hacc c (List.mem_reverse.mp hc)
  | cons c cs ih =>
    intro acc hacc w hw
    simp only [pySplitAux] at hw
    by_cases hc : c.isWhitespace = true
    · rw [if_pos hc] at hw
      by_cases ha : acc.isEmpty = true
      · rw [if_pos ha] at hw
        exact ih [] (by simp) w hw
      · rw [if_neg ha] at hw
        rcases List.mem_cons.mp hw with h1 | h2
        · subst h1
          constructor
          · simp only [ne_eq, List.reverse_eq_nil_iff]
            intro h
            rw [h] at ha
            simp at ha
          · intro d hd
            exact hacc d (List.mem_reverse.mp hd)
        · exact ih [] (by simp) w h2
    · rw [if_neg hc] at hw
      refine ih (c :: acc) ?_ w hw
      intro d hd
      rcases List.mem_cons.mp hd with h1 | h2
      · subst h1
        exact Bool.not_eq_true _ ▸ (by simpa using hc)
      · exact hacc d h2

lemma pySplit_good (s : List Char) :
    ∀ w ∈ pySplit s, w ≠ [] ∧ ∀ c ∈ w, c.isWhitespace = false :=
  pySplitAux_good s [] (by simp)

lemma joinWords_head (ws : List (List Char)) (hne : ws ≠ [])
    (hg : ∀ w ∈ ws, w ≠ [] ∧ ∀ c ∈ w, c.isWhitespace = false) :
    ∃ c t, joinWords ws = c :: t ∧ c.isWhitespace = false := by
  cases ws with
  | nil => exact absurd rfl hne
  | cons w rest =>
    obtain ⟨hw, hcs⟩ := hg w (List.mem_cons_self w rest)
    cases w with
    | nil => exact absurd rfl hw
    | cons c t0 =>
      have hcw : c.isWhitespace = false := hcs c (List.mem_cons_self c t0)
      cases rest with
      | nil => exact ⟨c, t0, rfl, hcw⟩
      | cons r rest2 =>
        refine ⟨c, t0 ++ ' ' :: joinWords (r :: rest2), ?_, hcw⟩
        show (c :: t0) ++ ' ' :: joinWords (r :: rest2) =
          c :: (t0 ++ ' ' :: joinWords (r :: rest2))
        simp

lemma joinWords_last (ws : List (List Char)) (hne : ws ≠ [])
    (hg : ∀ w ∈ ws, w ≠ [] ∧ ∀ c ∈ w, c.isWhitespace = false) :
    ∃ c t, (joinWords ws).reverse = c :: t ∧ c.isWhitespace = false := by
  induction ws with
  | nil => exact absurd rfl hne
  | cons w rest ih =>
    cases rest with
    | nil =>
      obtain ⟨hw, hcs⟩ := hg w (List.mem_cons_self w [])
      cases hwr : w.reverse with
      | nil => exact absurd (by simpa using hwr) hw
      | cons c t =>
        refine ⟨c, t, ?_, ?_⟩
        · show w.reverse = c :: t
          exact hwr
        · refine hcs c (List.mem_reverse.mp ?_)
          rw [hwr]
          exact List.mem_cons_self c t
    | cons r rest2 =>
      obtain ⟨c, t, hct, hcw⟩ := ih (by simp)
        (fun u hu => hg u (List.mem_cons_of_mem w hu))
      refine ⟨c, t ++ [' '] ++ w.reverse, ?_, hcw⟩
      show (w ++ ' ' :: joinWords (r :: rest2)).reverse = _
      rw [List.reverse_append, List.reverse_cons, hct]
      simp

lemma dropWhile_of_head_false (c : Char) (t : List Char)
    (hc : c.isWhitespace = false) :
    (c :: t).dropWhile Char.isWhitespace = c :: t := by
  simp [List.dropWhile_cons, hc]

lemma pyStrip_joinSpace (ws : List (List Char)) (hne : ws ≠ [])
    (hg : ∀ w ∈ ws, w ≠ [] ∧ ∀ c ∈ w, c.isWhitespace = false) :
    pyStrip (joinSpace ws) = joinWords ws := by
  rw [joinSpace_eq_joinWords ws hne]
  obtain ⟨c, t, hct, hcw⟩ := joinWords_head ws hne hg
  obtain ⟨d, u, hdu, hdw⟩ := joinWords_last ws hne hg
  unfold pyStrip
  have h1 : (joinWords ws ++ [' ']).dropWhile Char.isWhitespace =
      joinWords ws ++ [' '] := by
    rw [hct, List.cons_append]
    exact dropWhile_of_head_false c (t ++ [' ']) hcw
  rw [h1, List.reverse_append]
  have h2 : (([' '] : List Char).reverse ++ (joinWords ws).reverse).dropWhile
      Char.isWhitespace = (joinWords ws).reverse := by
    have hsp : (' ').isWhitespace = true := by decide
    simp only [List.reverse_cons, List.reverse_nil, List.nil_append,
      List.singleton_append, List.dropWhile_cons, hsp, if_pos]
    rw [hdu]
    exact dropWhile_of_head_false d u hdw
  rw [h2, List.reverse_reverse]

lemma streamWordsAux_concat (fb : Bool) :
    ∀ (ws : List (List Char)) (i n : Nat) (acc : List Char), ws ≠ [] →
      n = i + ws.length →
      ∃ evs, streamWordsAux fb ws i n acc =
        evs ++ [{ text := pyStrip (acc ++ joinSpace ws), is_complete := true,
                  is_fallback := fb }] := by
  intro ws
  induction ws with
  | nil => intro i n acc h; exact absurd rfl h
  | cons w rest ih =>
    intro i n acc _ hn
    cases rest with
    | nil =>
      have hni : i = n - 1 := by
        simp at hn
        omega
      refine ⟨[], ?_⟩
      simp only [streamWordsAux]
      rw [if_pos (Or.inr hni)]
      have hbeq : (i == n - 1) = true := by
        rw [hni]
        simp
      rw [hbeq]
      simp [joinSpace, List.append_assoc]
    | cons r rest2 =>
      have hn2 : n = (i + 1) + (r :: rest2).length := by
        simp at hn ⊢
        omega
      obtain ⟨evs2, hev⟩ := ih (i + 1) n (acc ++ w ++ [' ']) (by simp) hn2
      refine ⟨(if i % 3 = 0 ∨ i = n - 1 then
          [{ text := pyStrip (acc ++ w ++ [' ']), is_complete := i == n - 1,
             is_fallback := fb }]
        else []) ++ evs2, ?_⟩
      show (if i % 3 = 0 ∨ i = n - 1 then
          [{ text := pyStrip (acc ++ w ++ [' ']), is_complete := i == n - 1,
             is_fallback := fb }]
        else []) ++
          streamWordsAux fb (r :: rest2) (i + 1) n (acc ++ w ++ [' ']) = _
      rw [hev]
      simp [joinSpace, List.append_assoc]

/-- C4 counterexample: for the two-word response built as "a", two spaces,
"b", the last emitted event's cumulative text is the single-space join of the
words, which differs from the full response text. -/
theorem c4_counterexample :
    1 ≤ (pySplit (("a  b").toList)).length ∧
    (stream_response_words (("a  b").toList) false).getLast? =
      some (LlmEvent.mk (("a b").toList) true false) ∧
    ("a b").toList ≠ ("a  b").toList := by
  exact ⟨by decide, by decide, by decide⟩

/-- C4 (amended: the last event's cumulative text is the single-space join of
the response's words, equal to the full response text exactly when that text
is already in canonical single-space form): word-chunked streaming of an
N-word response (N >= 1) emits ceil(N/3) events plus the forced final-word
event exactly when the last word's index is off the every-third-word grid
((N-1) mod 3 differs from 0); the last emitted event has is_complete true,
carries the is_fallback flag, and its cumulative text is the single-space
join of all words. -/
theorem c4_word_chunked_streaming (text : List Char) (fb : Bool)
    (hN : 1 ≤ (pySplit text).length) :
    (stream_response_words text fb).length =
      ((pySplit text).length + 2) / 3 +
      (if ((pySplit text).length - 1) % 3 = 0 then 0 else 1) ∧
    ∃ ev : LlmEvent,
      (stream_response_words text fb).getLast? = some ev ∧
      ev.is_complete = true ∧ ev.is_fallback = fb ∧
      ev.text = joinWords (pySplit text) ∧
      (joinWords (pySplit text) = text → ev.text = text) := by
  have hws : pySplit text ≠ [] := by
    intro h
    rw [h] at hN
    simp at hN
  constructor
  · show (streamWordsAux fb (pySplit text) 0 (pySplit text).length []).length = _
    rw [streamWordsAux_length, emitCount_closed]
    split_ifs <;> omega
  · obtain ⟨evs, hev⟩ := streamWordsAux_concat fb (pySplit text) 0
      (pySplit text).length [] hws (by simp)
    have htext : pyStrip ([] ++ joinSpace (pySplit text)) =
        joinWords (pySplit text) := by
      rw [List.nil_append]
      exact pyStrip_joinSpace (pySplit text) hws (pySplit_good text)
    refine ⟨LlmEvent.mk (pyStrip ([] ++ joinSpace (pySplit text))) true fb,
      ?_, rfl, rfl, htext, fun hcan => htext.trans hcan⟩
    show (streamWordsAux fb (pySplit text) 0 (pySplit text).length []).getLast? = _
    rw [hev]
    exact List.getLast?_concat _

/-- C4 witness: the 4-word response "alpha beta gamma delta" yields 2 events,
the last being complete with the full text. -/
theorem c4_word_chunked_streaming_witness :
    (stream_response_words (("alpha beta gamma delta").toList) false).length =
      (((pySplit (("alpha beta gamma delta").toList)).length + 2) / 3 +
        (if ((pySplit (("alpha beta gamma delta").toList)).length - 1) % 3 = 0
         then 0 else 1)) ∧
    ∃ ev : LlmEvent,
      (stream_response_words (("alpha beta gamma delta").toList)
        false).getLast? = some ev ∧
      ev.is_complete = true ∧ ev.is_fallback = false ∧
      ev.text = joinWords (pySplit (("alpha beta gamma delta").toList)) ∧
      (joinWords (pySplit (("alpha beta gamma delta").toList)) =
          ("alpha beta gamma delta").toList →
        ev.text = ("alpha beta gamma delta").toList) :=
  c4_word_chunked_streaming (("alpha beta gamma delta").toList) false (by decide)

end VoiceAgent
